import Mathlib

/-!
Verification of the Google Calendar HTTP tool server
(`calendar_server_http.py`): a shallow embedding of its credential
resolver, tool dispatcher and calendar operations, with theorems about
the behavioural claims of its specification.
-/

/-! ## Python `datetime` model

`datetime.fromisoformat` / `isoformat` are modelled for the two input
shapes the source documents (`YYYY-MM-DDTHH:MM:SS` with an optional
`±HH:MM` UTC offset).  A parsed datetime is wall-clock seconds since
0000-03-01 (proleptic Gregorian) plus an optional offset in minutes,
which is exactly the information Python keeps (naive clock value plus
`tzinfo`); `timedelta` addition acts on the wall-clock value only, as
in Python. -/

/-- A parsed Python `datetime`: naive wall-clock seconds (measured from
0000-03-01, proleptic Gregorian) and the UTC offset, in minutes, of its
`tzinfo` when one was given. -/
structure PyDateTime where
  secs : Int
  tz : Option Int
deriving DecidableEq

/-- Leap year test of the Gregorian calendar (as Python's `datetime`). -/
def isLeap (y : Nat) : Bool :=
  y % 4 == 0 && (y % 100 != 0 || y % 400 == 0)

/-- Days in a month, as validated by `datetime.fromisoformat`. -/
def daysInMonth (y m : Nat) : Nat :=
  if m = 2 then (if isLeap y then 29 else 28)
  else if m = 4 ∨ m = 6 ∨ m = 9 ∨ m = 11 then 30
  else 31

/-- Day count of a civil date, measured from 0000-03-01 (valid for
`1 ≤ y`, `1 ≤ m ≤ 12`, `1 ≤ d`). -/
def daysFromCivil (y m d : Nat) : Nat :=
  let y1 := y - (if m ≤ 2 then 1 else 0)
  let era := y1 / 400
  let yoe := y1 % 400
  let mp := if 2 < m then m - 3 else m + 9
  let doy := (153 * mp + 2) / 5 + (d - 1)
  let doe := yoe * 365 + yoe / 4 - yoe / 100 + doy
  era * 146097 + doe

/-- Inverse of `daysFromCivil`: civil `(year, month, day)` of a day
count measured from 0000-03-01. -/
def civilFromDays (z : Int) : Int × Int × Int :=
  let era := z.ediv 146097
  let doe := z - era * 146097
  let yoe := (doe - doe.ediv 1460 + doe.ediv 36524 - doe.ediv 146096).ediv 365
  let y := yoe + era * 400
  let doy := doe - (365 * yoe + yoe.ediv 4 - yoe.ediv 100)
  let mp := (5 * doy + 2).ediv 153
  let d := doy - (153 * mp + 2).ediv 5 + 1
  let m := if mp < 10 then mp + 3 else mp - 9
  (y + (if m ≤ 2 then 1 else 0), m, d)

/-- ASCII digit test (`fromisoformat` accepts ASCII digits only). -/
def isDig (c : Char) : Bool :=
  48 ≤ c.toNat && c.toNat ≤ 57

/-- Numeric value of an ASCII digit character. -/
def digitVal (c : Char) : Nat :=
  c.toNat - 48

/-- Two-digit field of an ISO timestamp. -/
def d2 (c1 c2 : Char) : Option Nat :=
  if isDig c1 && isDig c2 then some (10 * digitVal c1 + digitVal c2) else none

/-- Four-digit year field of an ISO timestamp. -/
def d4 (c1 c2 c3 c4 : Char) : Option Nat :=
  if isDig c1 && isDig c2 && isDig c3 && isDig c4 then
    some (1000 * digitVal c1 + 100 * digitVal c2 + 10 * digitVal c3 + digitVal c4)
  else none

/-- Validate the naive fields and convert them to wall-clock seconds,
with the range checks `fromisoformat` performs. -/
def mkNaive (y1 y2 y3 y4 mo1 mo2 dd1 dd2 hh1 hh2 mi1 mi2 ss1 ss2 : Char) : Option Int := do
  let y ← d4 y1 y2 y3 y4
  let mo ← d2 mo1 mo2
  let dd ← d2 dd1 dd2
  let hh ← d2 hh1 hh2
  let mi ← d2 mi1 mi2
  let ss ← d2 ss1 ss2
  if 1 ≤ y ∧ 1 ≤ mo ∧ mo ≤ 12 ∧ 1 ≤ dd ∧ dd ≤ daysInMonth y mo ∧ hh ≤ 23 ∧ mi ≤ 59 ∧ ss ≤ 59 then
    pure ((daysFromCivil y mo dd * 86400 + hh * 3600 + mi * 60 + ss : Nat) : Int)
  else none

/-- Validate an offset field `±HH:MM` and convert it to minutes, with
the range checks `fromisoformat` performs (an offset is strictly
smaller than 24 hours). -/
def mkOffset (sg o1 o2 o3 o4 : Char) : Option Int := do
  let oh ← d2 o1 o2
  let om ← d2 o3 o4
  if (sg = '+' ∨ sg = '-') ∧ oh ≤ 23 ∧ om ≤ 59 then
    pure ((if sg = '-' then -1 else 1) * ((60 * oh + om : Nat) : Int))
  else none

/-- Parse the 19 characters of a naive `YYYY-MM-DDTHH:MM:SS` timestamp. -/
def parseNaive : List Char → Option Int
  | [y1, y2, y3, y4, '-', mo1, mo2, '-', dd1, dd2, 'T',
     hh1, hh2, ':', mi1, mi2, ':', ss1, ss2] =>
    mkNaive y1 y2 y3 y4 mo1 mo2 dd1 dd2 hh1 hh2 mi1 mi2 ss1 ss2
  | _ => none

/-- Parse the 6 characters of a `±HH:MM` UTC offset. -/
def parseOffset : List Char → Option Int
  | [sg, o1, o2, c, o3, o4] => if c = ':' then mkOffset sg o1 o2 o3 o4 else none
  | _ => none

/-- `datetime.fromisoformat`, on the two input shapes the source
documents: `2024-12-25T10:00:00` or `2024-12-25T10:00:00-07:00`. -/
def parseISO (s : String) : Option PyDateTime :=
  if s.data.length = 19 then
    (parseNaive s.data).map (fun n => ⟨n, none⟩)
  else if s.data.length = 25 then
    match parseNaive (s.data.take 19), parseOffset (s.data.drop 19) with
    | some n, some off => some ⟨n, some off⟩
    | _, _ => none
  else none

/-- Render a number as two zero-padded decimal digits. -/
def pad2 (v : Nat) : String :=
  if v < 10 then "0" ++ Nat.repr v else Nat.repr v

/-- Render a year as four zero-padded decimal digits. -/
def pad4 (v : Nat) : String :=
  if v < 10 then "000" ++ Nat.repr v
  else if v < 100 then "00" ++ Nat.repr v
  else if v < 1000 then "0" ++ Nat.repr v
  else Nat.repr v

/-- Render the naive part of a datetime, as `datetime.isoformat` does. -/
def isoNaive (secs : Int) : String :=
  let day := secs.ediv 86400
  let sod := secs.emod 86400
  let c := civilFromDays day
  pad4 c.1.toNat ++ "-" ++ pad2 c.2.1.toNat ++ "-" ++ pad2 c.2.2.toNat ++ "T" ++
    pad2 (sod.ediv 3600).toNat ++ ":" ++ pad2 ((sod.emod 3600).ediv 60).toNat ++ ":" ++
    pad2 (sod.emod 60).toNat

/-- Render a UTC offset as `datetime.isoformat` does: sign taken from
the signed offset (so an offset of zero minutes renders as `+00:00`). -/
def renderOffset (off : Int) : String :=
  (if off < 0 then "-" else "+") ++ pad2 (off.natAbs / 60) ++ ":" ++ pad2 (off.natAbs % 60)

/-- `datetime.isoformat`: the naive clock value, then the offset of its
`tzinfo` when one is attached. -/
def isoformat (dt : PyDateTime) : String :=
  match dt.tz with
  | none => isoNaive dt.secs
  | some off => isoNaive dt.secs ++ renderOffset off

/-- `dt + timedelta(minutes=m)`: Python adds to the wall-clock value
and keeps `tzinfo` unchanged. -/
def addMinutes (dt : PyDateTime) (m : Int) : PyDateTime :=
  ⟨dt.secs + 60 * m, dt.tz⟩

/-! ## Tool-call values, event payloads -/

/-- A JSON argument value as the two tools consume them (string or
integer). -/
inductive Arg where
  | str (s : String)
  | int (n : Int)
deriving DecidableEq

/-- `request.arguments[k]` lookup (first binding wins, as in a dict). -/
def lookupArg (args : List (String × Arg)) (k : String) : Option Arg :=
  (args.find? (fun p => p.1 = k)).map (fun p => p.2)

/-- One `start`/`end` object of the insert payload: a `dateTime` string
and, in the naive branch only, a `timeZone` label. -/
structure EventTime where
  dateTime : String
  timeZone : Option String
deriving DecidableEq

/-- The event body `create_event` hands to
`service.events().insert(calendarId='primary', body=event)`. -/
structure EventBody where
  summary : Arg
  start : EventTime
  end_ : EventTime
deriving DecidableEq

/-- Lines 184–198 of `create_event`: build the insert payload from the
parsed start datetime; the timezone branch on `start_dt.tzinfo`. -/
def eventPayload (summary : Arg) (start_dt : PyDateTime) (duration_minutes : Int) : EventBody :=
  let end_dt := addMinutes start_dt duration_minutes
  match start_dt.tz with
  | none =>
    { summary := summary
      start := ⟨isoformat start_dt, some "America/Los_Angeles"⟩
      end_ := ⟨isoformat end_dt, some "America/Los_Angeles"⟩ }
  | some _ =>
    { summary := summary
      start := ⟨isoformat start_dt, none⟩
      end_ := ⟨isoformat end_dt, none⟩ }

/-- The payload portion of `create_event` (lines 180–198): parse the
start time, then build the event body. -/
def buildEvent (summary : Arg) (start_time : String) (duration_minutes : Int) : Option EventBody :=
  (parseISO start_time).map (fun dt => eventPayload summary dt duration_minutes)

/-! ## Credential resolver (`get_calendar_service`) -/

/-- The three environment variables the resolver reads
(`os.environ.get` returns `None` when a variable is unset). -/
structure Env where
  refresh_token : Option String
  client_id : Option String
  client_secret : Option String
deriving DecidableEq

/-- Local filesystem state the resolver can see: `token.json`
(`some v` when the file exists, `v` the validity of the credential it
holds) and whether `credentials.json` exists. -/
structure FS where
  tokenFile : Option Bool
  credentialsFileExists : Bool
deriving DecidableEq

/-- The credential bundle the resolver produces. -/
inductive Creds where
  | fromEnv (refresh_token token_uri client_id client_secret : String)
  | fromFile (valid : Bool)
  | fromFlow
deriving DecidableEq

/-- Filesystem / interactive side effects the resolver can perform, in
order. -/
inductive FsEffect where
  | checkTokenFile
  | readTokenFile
  | checkCredentialsFile
  | runFlow
  | writeTokenFile
deriving DecidableEq

/-- Python exceptions the request path can raise, with the renderings
`str(e)` produces for each. -/
inductive PyError where
  | keyError (key : String)
  | typeError (msg : String)
  | valueError (msg : String)
  | fileNotFound (msg : String)
  | httpException (status : Nat) (detail : String)
deriving DecidableEq

/-- `str(e)` for each modelled exception. -/
def strOfError : PyError → String
  | .keyError k => "\x27" ++ k ++ "\x27"
  | .typeError m => m
  | .valueError m => m
  | .fileNotFound m => m
  | .httpException c d => Nat.repr c ++ ": " ++ d

/-- The `FileNotFoundError` message of the resolver. -/
def credsNotFoundMsg : String :=
  "credentials.json not found. Please add Google OAuth credentials."

/-- The development branch of `get_calendar_service` (lines 50–68):
load `token.json` when present; when no valid credential results, the
interactive flow requires `credentials.json` and rewrites
`token.json`. -/
def devPath (fs : FS) : Except PyError Creds × List FsEffect :=
  match fs.tokenFile with
  | some valid =>
    if valid then
      (.ok (.fromFile true), [.checkTokenFile, .readTokenFile])
    else if fs.credentialsFileExists then
      (.ok .fromFlow,
       [.checkTokenFile, .readTokenFile, .checkCredentialsFile, .runFlow, .writeTokenFile])
    else
      (.error (.fileNotFound credsNotFoundMsg),
       [.checkTokenFile, .readTokenFile, .checkCredentialsFile])
  | none =>
    if fs.credentialsFileExists then
      (.ok .fromFlow, [.checkTokenFile, .checkCredentialsFile, .runFlow, .writeTokenFile])
    else
      (.error (.fileNotFound credsNotFoundMsg), [.checkTokenFile, .checkCredentialsFile])

/-- `get_calendar_service` (lines 31–70): the production branch fires
when all three variables are truthy (`if refresh_token and client_id
and client_secret`), building the bundle from them with the fixed
token endpoint and touching nothing else; otherwise the development
branch runs. -/
def get_calendar_service (env : Env) (fs : FS) : Except PyError Creds × List FsEffect :=
  match env.refresh_token, env.client_id, env.client_secret with
  | some rt, some ci, some cs =>
    if rt != "" && ci != "" && cs != "" then
      (.ok (.fromEnv rt "https://oauth2.googleapis.com/token" ci cs), [])
    else devPath fs
  | _, _, _ => devPath fs

/-! ## Calendar operations and dispatcher -/

/-- One provider event as `list_events` reads it: `event['start']`
may hold `dateTime` or `date`, and `event['summary']`. -/
structure EventItem where
  startDateTime : Option String
  startDate : Option String
  summary : String
deriving DecidableEq

/-- `event['start'].get('dateTime', event['start'].get('date'))`,
then `f"{start}: {event['summary']}"` (a missing start renders as
Python renders `None`). -/
def fmtEvent (e : EventItem) : String :=
  (match e.startDateTime with
   | some s => s
   | none => match e.startDate with
     | some s => s
     | none => "None") ++ ": " ++ e.summary

/-- `'\n'.join`, as Python computes it. -/
def joinNl : List String → String
  | [] => ""
  | [s] => s
  | s :: rest => s ++ "\n" ++ joinNl rest

/-- `datetime.utcnow().isoformat() + 'Z'` at a given clock reading. -/
def isoZ (secs : Int) : String :=
  isoNaive secs ++ "Z"

/-- The query parameters of `service.events().list(...)`. -/
structure ListQuery where
  calendarId : String
  timeMin : String
  timeMax : String
  maxResults : Nat
  singleEvents : Bool
  orderBy : String
deriving DecidableEq

/-- A network call to the calendar provider. -/
inductive ProviderCall where
  | list (q : ListQuery)
  | insert (calendarId : String) (body : EventBody)
deriving DecidableEq

/-- External state of one request: process environment, local files,
the two successive `utcnow()` readings `list_events` takes, the items
the provider returns to the list query, and the `htmlLink` it returns
to an insert. -/
structure World where
  env : Env
  fs : FS
  now1 : Int
  now2 : Int
  listItems : List EventItem
  insertLink : String

/-- The `[timeMin, timeMax]` window of the list query: first clock
reading, second clock reading plus `timedelta(days=days_ahead)`. -/
def listWindow (w : World) (days_ahead : Int) : Int × Int :=
  (w.now1, w.now2 + 86400 * days_ahead)

/-- `list_events` (lines 148–174): resolve credentials, query the
provider over the UTC window, format the items or return the sentinel
string. -/
def list_events (w : World) (days_ahead : Arg) : Except PyError String × List ProviderCall :=
  match (get_calendar_service w.env w.fs).1 with
  | .error e => (.error e, [])
  | .ok _ =>
    match days_ahead with
    | .str _ =>
      (.error (.typeError "unsupported type for timedelta days component: str"), [])
    | .int d =>
      let win := listWindow w d
      let q : ListQuery := ⟨"primary", isoZ win.1, isoZ win.2, 10, true, "startTime"⟩
      if w.listItems.isEmpty then
        (.ok "No upcoming events found.", [.list q])
      else
        (.ok (joinNl (w.listItems.map fmtEvent)), [.list q])

/-- `create_event` (lines 176–201): resolve credentials, parse the
start time (`TypeError` for a non-string, `ValueError` for a bad
format), add the duration (`TypeError` for a non-integer), insert the
payload and report the provider's link. -/
def create_event (w : World) (summary start_time duration_minutes : Arg) :
    Except PyError String × List ProviderCall :=
  match (get_calendar_service w.env w.fs).1 with
  | .error e => (.error e, [])
  | .ok _ =>
    match start_time with
    | .int _ => (.error (.typeError "fromisoformat: argument must be str"), [])
    | .str s =>
      match parseISO s with
      | none => (.error (.valueError ("Invalid isoformat string: \x27" ++ s ++ "\x27")), [])
      | some dt =>
        match duration_minutes with
        | .str _ =>
          (.error (.typeError "unsupported type for timedelta minutes component: str"), [])
        | .int m =>
          let body := eventPayload summary dt m
          (.ok ("Event created: " ++ w.insertLink), [.insert "primary" body])

/-- A `POST /tools/call` body. -/
structure ToolCallRequest where
  name : String
  arguments : List (String × Arg)

/-- The HTTP outcome of `/tools/call`: the success envelope's text, or
an error status with its detail string. -/
inductive HttpResult where
  | ok (text : String)
  | err (status : Nat) (detail : String)
deriving DecidableEq

/-- `call_tool` (lines 129–146): dispatch on the tool name; missing
required arguments raise `KeyError`; an unknown name raises
`HTTPException(400)`; the blanket `except Exception` then converts
every exception raised inside the `try` — the 400 included — into
`HTTPException(500, str(e))`. -/
def call_tool (w : World) (req : ToolCallRequest) : HttpResult × List ProviderCall :=
  let inner : Except PyError String × List ProviderCall :=
    if req.name = "list_events" then
      let days := (lookupArg req.arguments "days_ahead").getD (.int 7)
      list_events w days
    else if req.name = "create_event" then
      match lookupArg req.arguments "summary" with
      | none => (.error (.keyError "summary"), [])
      | some summary =>
        match lookupArg req.arguments "start_time" with
        | none => (.error (.keyError "start_time"), [])
        | some st =>
          let dur := (lookupArg req.arguments "duration_minutes").getD (.int 60)
          create_event w summary st dur
    else
      (.error (.httpException 400 ("Unknown tool: " ++ req.name)), [])
  match inner with
  | (.ok text, calls) => (.ok text, calls)
  | (.error e, calls) => (.err 500 (strOfError e), calls)

/-- The resolver succeeds on this world (no `FileNotFoundError`). -/
def credsOk (w : World) : Prop :=
  ∃ c, (get_calendar_service w.env w.fs).1 = .ok c

deriving instance DecidableEq for Except

/-! ## Helper lemmas -/

/-- The resolver falls to the development branch whenever the truthiness
test of the three variables fails. -/
theorem get_calendar_service_dev (env : Env) (fs : FS)
    (h : env.refresh_token = none ∨ env.client_id = none ∨ env.client_secret = none ∨
         env.refresh_token = some "" ∨ env.client_id = some "" ∨ env.client_secret = some "") :
    get_calendar_service env fs = devPath fs := by
  obtain ⟨rt, ci, cs⟩ := env
  simp only [get_calendar_service]
  rcases rt with _ | rt <;> rcases ci with _ | ci <;> rcases cs with _ | cs <;> simp_all
  intro h1 h2 h3
  rcases h with h | h | h <;> simp_all

/-- The development branch raises the `FileNotFoundError` exactly when
no valid token-file credential exists and `credentials.json` is
absent. -/
theorem devPath_error_iff (fs : FS) :
    (devPath fs).1 = .error (.fileNotFound credsNotFoundMsg) ↔
      (fs.tokenFile ≠ some true ∧ fs.credentialsFileExists = false) := by
  obtain ⟨tf, ce⟩ := fs
  rcases tf with _ | v
  · cases ce <;> simp [devPath]
  · cases v <;> cases ce <;> simp [devPath]

/-- When the truthiness test of the three variables succeeds, the
resolver returns the environment-built bundle and performs no
effects. -/
theorem get_calendar_service_env (fs : FS) (rt ci cs : String)
    (h1 : rt ≠ "") (h2 : ci ≠ "") (h3 : cs ≠ "") :
    get_calendar_service ⟨some rt, some ci, some cs⟩ fs =
      (.ok (.fromEnv rt "https://oauth2.googleapis.com/token" ci cs), []) := by
  simp [get_calendar_service, h1, h2, h3]

/-- HTTP status of a `/tools/call` outcome. -/
def statusOf : HttpResult → Nat
  | .ok _ => 200
  | .err s _ => s

/-! ## Claim theorems -/

/-- A world whose environment holds a full, non-empty credential
triple and whose local filesystem is empty. -/
def wProd : World :=
  ⟨⟨some "rtok", some "cid", some "csec"⟩, ⟨none, false⟩, 0, 0, [], "https://cal/link"⟩

/-- C2 (code bug evidence): a `/tools/call` request with an unknown
tool name answers HTTP 500, not 400: the handler raises
`HTTPException(400)` inside its own `try`, and the blanket
`except Exception` re-raises it as a 500 whose detail is the printed
400 error.  No provider call occurs. -/
theorem unknown_tool_responds_500 :
    statusOf (call_tool wProd ⟨"delete_event", []⟩).1 = 500 ∧
    statusOf (call_tool wProd ⟨"delete_event", []⟩).1 ≠ 400 ∧
    (call_tool wProd ⟨"delete_event", []⟩).1 =
      .err 500 "400: Unknown tool: delete_event" ∧
    (call_tool wProd ⟨"delete_event", []⟩).2 = [] := by
  decide

/-- C6 (as amended): when the three credential variables are present
and non-empty, the resolver builds the bundle directly from them with
the fixed token endpoint and performs no filesystem or interactive
effect at all. -/
theorem env_triple_nonempty_no_fs (env : Env) (fs : FS) (rt ci cs : String)
    (hrt : env.refresh_token = some rt) (hci : env.client_id = some ci)
    (hcs : env.client_secret = some cs)
    (h1 : rt ≠ "") (h2 : ci ≠ "") (h3 : cs ≠ "") :
    get_calendar_service env fs =
      (.ok (.fromEnv rt "https://oauth2.googleapis.com/token" ci cs), []) := by
  obtain ⟨a, b, c⟩ := env
  cases hrt; cases hci; cases hcs
  exact get_calendar_service_env fs rt ci cs h1 h2 h3

/-- Witness for `env_triple_nonempty_no_fs` at a concrete
environment. -/
theorem env_triple_nonempty_no_fs_witness :
    get_calendar_service ⟨some "r", some "i", some "s"⟩ ⟨some true, true⟩ =
      (.ok (.fromEnv "r" "https://oauth2.googleapis.com/token" "i" "s"), []) :=
  env_triple_nonempty_no_fs ⟨some "r", some "i", some "s"⟩ ⟨some true, true⟩
    "r" "i" "s" rfl rfl rfl (by decide) (by decide) (by decide)

/-- C6 counterexample to the claim as stated: with all three variables
present but equal to the empty string, the resolver reads the token
file (a filesystem access) and returns a file credential, not one
constructed from the environment. -/
theorem env_present_but_empty_reads_fs :
    (get_calendar_service ⟨some "", some "x", some "y"⟩ ⟨some true, true⟩).2 ≠ [] ∧
    FsEffect.readTokenFile ∈ (get_calendar_service ⟨some "", some "x", some "y"⟩ ⟨some true, true⟩).2 ∧
    (⟨some "", some "x", some "y"⟩ : Env).refresh_token ≠ none ∧
    (⟨some "", some "x", some "y"⟩ : Env).client_id ≠ none ∧
    (⟨some "", some "x", some "y"⟩ : Env).client_secret ≠ none ∧
    (get_calendar_service ⟨some "", some "x", some "y"⟩ ⟨some true, true⟩).1 =
      .ok (.fromFile true) := by
  decide

/-- C7 (as amended): credential resolution raises the
`FileNotFoundError` exactly when the environment path is unavailable
(some variable missing **or empty**), no valid persisted token
credential is usable, and the client-secrets file does not exist. -/
theorem config_error_iff (env : Env) (fs : FS) :
    (get_calendar_service env fs).1 = .error (.fileNotFound credsNotFoundMsg) ↔
      ((env.refresh_token = none ∨ env.client_id = none ∨ env.client_secret = none ∨
        env.refresh_token = some "" ∨ env.client_id = some "" ∨ env.client_secret = some "") ∧
       fs.tokenFile ≠ some true ∧ fs.credentialsFileExists = false) := by
  by_cases hd : env.refresh_token = none ∨ env.client_id = none ∨ env.client_secret = none ∨
      env.refresh_token = some "" ∨ env.client_id = some "" ∨ env.client_secret = some ""
  · rw [get_calendar_service_dev env fs hd]
    rw [devPath_error_iff]
    simp [hd]
  · obtain ⟨rt, ci, cs⟩ := env
    push_neg at hd
    obtain ⟨n1, n2, n3, e1, e2, e3⟩ := hd
    rcases rt with _ | rt; · simp at n1
    rcases ci with _ | ci; · simp at n2
    rcases cs with _ | cs; · simp at n3
    simp only at e1 e2 e3
    rw [get_calendar_service_env fs rt ci cs (by simpa using e1) (by simpa using e2)
      (by simpa using e3)]
    simp [e1, e2, e3]

/-- C7 counterexample to the claim as stated: an environment in which
none of the three variables is missing (each is present, empty) still
produces the ConfigurationError when no token or client-secrets file
exists. -/
theorem config_error_with_all_vars_present :
    (get_calendar_service ⟨some "", some "", some ""⟩ ⟨none, false⟩).1 =
      .error (.fileNotFound credsNotFoundMsg) ∧
    (⟨some "", some "", some ""⟩ : Env).refresh_token ≠ none ∧
    (⟨some "", some "", some ""⟩ : Env).client_id ≠ none ∧
    (⟨some "", some "", some ""⟩ : Env).client_secret ≠ none := by
  decide

/-- C9: a credential variable that is present but empty fails the
truthiness test, so the resolver takes the development
(token-file / interactive) branch. -/
theorem empty_env_var_dev_path (env : Env) (fs : FS)
    (h : env.refresh_token = some "" ∨ env.client_id = some "" ∨ env.client_secret = some "") :
    get_calendar_service env fs = devPath fs := by
  apply get_calendar_service_dev
  tauto

/-- Witness for `empty_env_var_dev_path`: a concrete environment with
an empty refresh token. -/
theorem empty_env_var_dev_path_witness :
    get_calendar_service ⟨some "", some "x", some "y"⟩ ⟨none, true⟩ = devPath ⟨none, true⟩ :=
  empty_env_var_dev_path ⟨some "", some "x", some "y"⟩ ⟨none, true⟩ (Or.inl rfl)

/-- C8: a `create_event` tool call whose arguments lack `summary` or
`start_time` fails on the `KeyError` of the first missing key, before
the calendar operation runs: no provider call occurs. -/
theorem missing_required_arg_no_provider_call (w : World) (args : List (String × Arg))
    (h : lookupArg args "summary" = none ∨ lookupArg args "start_time" = none) :
    (call_tool w ⟨"create_event", args⟩).2 = [] ∧
    ∃ k, (k = "summary" ∨ k = "start_time") ∧ lookupArg args k = none ∧
      (call_tool w ⟨"create_event", args⟩).1 = .err 500 (strOfError (.keyError k)) := by
  cases hs : lookupArg args "summary" with
  | none =>
    refine ⟨?_, "summary", Or.inl rfl, hs, ?_⟩ <;> simp [call_tool, hs]
  | some v =>
    have ht : lookupArg args "start_time" = none := by
      rcases h with h | h
      · rw [hs] at h; exact absurd h (by simp)
      · exact h
    refine ⟨?_, "start_time", Or.inr rfl, ht, ?_⟩ <;> simp [call_tool, hs, ht]

/-- Every formatted event line contains a colon (from the `": "` the
format string inserts). -/
theorem colon_mem_fmtEvent (e : EventItem) : ':' ∈ (fmtEvent e).data := by
  unfold fmtEvent
  rw [String.data_append, String.data_append]
  exact List.mem_append_left _ (List.mem_append_right _ (by decide))

/-- A character of some line survives into the newline join. -/
theorem colon_mem_joinNl (l : List String) (h : ∀ x ∈ l, ':' ∈ x.data) (hne : l ≠ []) :
    ':' ∈ (joinNl l).data := by
  match l with
  | [s] => simpa [joinNl] using h s (by simp)
  | s :: t :: r =>
    rw [show joinNl (s :: t :: r) = s ++ "\n" ++ joinNl (t :: r) from rfl]
    rw [String.data_append, String.data_append]
    exact List.mem_append_left _ (List.mem_append_left _ (h s (by simp)))

/-- The joined event lines never equal the sentinel: every line holds a
colon and the sentinel holds none. -/
theorem joinNl_ne_sentinel (l : List EventItem) (hne : l ≠ []) :
    joinNl (l.map fmtEvent) ≠ "No upcoming events found." := by
  intro heq
  have h : ':' ∈ (joinNl (l.map fmtEvent)).data := by
    refine colon_mem_joinNl _ ?_ (by simpa using hne)
    intro x hx
    obtain ⟨e, _, rfl⟩ := List.mem_map.mp hx
    exact colon_mem_fmtEvent e
  rw [heq] at h
  exact absurd h (by decide)

/-- C4: when credentials resolve, `list_events` returns exactly the
sentinel string `"No upcoming events found."` when the provider
returns zero events, and in no other case: a non-empty result is the
events formatted as `<start>: <summary>` joined by newlines, which
always differs from the sentinel. -/
theorem list_events_sentinel_iff (w : World) (d : Int) (hc : credsOk w) :
    ∃ s, (list_events w (.int d)).1 = .ok s ∧
      (s = "No upcoming events found." ↔ w.listItems = []) ∧
      (w.listItems ≠ [] → s = joinNl (w.listItems.map fmtEvent)) := by
  obtain ⟨c, hc⟩ := hc
  by_cases he : w.listItems.isEmpty
  · rw [List.isEmpty_iff] at he
    exact ⟨"No upcoming events found.", by simp [list_events, hc, he], by simp [he],
      fun hne => absurd he hne⟩
  · have hne : w.listItems ≠ [] := by simpa [List.isEmpty_iff] using he
    refine ⟨joinNl (w.listItems.map fmtEvent), ?_, ?_, fun _ => rfl⟩
    · simp [list_events, hc, he]
    · constructor
      · intro heq; exact absurd heq (joinNl_ne_sentinel _ hne)
      · intro h; exact absurd h hne

/-- Witness for `list_events_sentinel_iff`: a provider returning zero
events over a resolvable world. -/
theorem list_events_sentinel_iff_witness :
    ∃ s, (list_events wProd (.int 7)).1 = .ok s ∧
      (s = "No upcoming events found." ↔ wProd.listItems = []) ∧
      (wProd.listItems ≠ [] → s = joinNl (wProd.listItems.map fmtEvent)) :=
  list_events_sentinel_iff wProd 7
    ⟨.fromEnv "rtok" "https://oauth2.googleapis.com/token" "cid" "csec", rfl⟩

/-- C5: when credentials resolve, `list_events` issues exactly one
provider query: primary calendar, UTC window from the call's clock
reading to that reading plus `days_ahead` days, `maxResults` 10,
`singleEvents` true, ordered by start time; for `days_ahead = 1` the
window spans exactly 24 hours (86400 seconds), and when the provider
honours `maxResults` at most 10 formatted lines result. -/
theorem list_events_query_window (w : World) (d : Int) (hc : credsOk w)
    (hn : w.now1 = w.now2) (hl : w.listItems.length ≤ 10) :
    (list_events w (.int d)).2 =
      [.list ⟨"primary", isoZ w.now1, isoZ (w.now1 + 86400 * d), 10, true, "startTime"⟩] ∧
    (listWindow w 1).2 - (listWindow w 1).1 = 86400 ∧
    (w.listItems.map fmtEvent).length ≤ 10 := by
  obtain ⟨c, hc⟩ := hc
  refine ⟨?_, ?_, by simpa using hl⟩
  · by_cases he : w.listItems.isEmpty <;> simp [list_events, hc, he, listWindow, hn]
  · simp only [listWindow]
    omega

/-- Witness for `list_events_query_window` at a concrete world. -/
theorem list_events_query_window_witness :
    (list_events wProd (.int 1)).2 =
      [.list ⟨"primary", isoZ wProd.now1, isoZ (wProd.now1 + 86400 * 1), 10, true, "startTime"⟩] ∧
    (listWindow wProd 1).2 - (listWindow wProd 1).1 = 86400 ∧
    (wProd.listItems.map fmtEvent).length ≤ 10 :=
  list_events_query_window wProd 1
    ⟨.fromEnv "rtok" "https://oauth2.googleapis.com/token" "cid" "csec", rfl⟩
    rfl (by decide)

/-- C3: the `end` timestamp of the payload is the rendering of the
parsed start timestamp advanced by exactly `60 * duration_minutes`
seconds — exact integer arithmetic, any integer duration, no
rounding. -/
theorem create_event_end_exact (summary : Arg) (s : String) (m : Int) (dt : PyDateTime)
    (h : parseISO s = some dt) :
    buildEvent summary s m = some (eventPayload summary dt m) ∧
    (eventPayload summary dt m).end_.dateTime = isoformat ⟨dt.secs + 60 * m, dt.tz⟩ := by
  refine ⟨by simp [buildEvent, h], ?_⟩
  obtain ⟨sec, tz⟩ := dt
  cases tz <;> simp [eventPayload, addMinutes, isoformat]

/-- Witness for `create_event_end_exact` at the specification's
example input. -/
theorem create_event_end_exact_witness :
    buildEvent (.str "Standup") "2024-12-25T10:00:00" 30 =
      some (eventPayload (.str "Standup") ⟨63897156000, none⟩ 30) ∧
    (eventPayload (.str "Standup") ⟨63897156000, none⟩ 30).end_.dateTime =
      isoformat ⟨63897156000 + 60 * 30, none⟩ :=
  create_event_end_exact (.str "Standup") "2024-12-25T10:00:00" 30 ⟨63897156000, none⟩
    (by decide)

/-- C10: `create_event` accepts every integer `duration_minutes` —
zero and negative included — with no local validation: the insert
still happens with `end = start + duration`, so the end timestamp can
equal or precede the start. -/
theorem create_event_any_duration (w : World) (summary : Arg) (s : String) (dt : PyDateTime)
    (m : Int) (hc : credsOk w) (h : parseISO s = some dt) :
    create_event w summary (.str s) (.int m) =
      (.ok ("Event created: " ++ w.insertLink),
       [.insert "primary" (eventPayload summary dt m)]) ∧
    (eventPayload summary dt m).end_.dateTime = isoformat (addMinutes dt m) ∧
    ((addMinutes dt m).secs < dt.secs ↔ m < 0) ∧
    ((addMinutes dt m).secs = dt.secs ↔ m = 0) := by
  obtain ⟨c, hc⟩ := hc
  refine ⟨by simp [create_event, hc, h], ?_, ?_, ?_⟩
  · obtain ⟨sec, tz⟩ := dt
    cases tz <;> simp [eventPayload, addMinutes, isoformat]
  · simp only [addMinutes]; omega
  · simp only [addMinutes]; omega

/-- Witness for `create_event_any_duration` at a negative duration. -/
theorem create_event_any_duration_witness :
    create_event wProd (.str "x") (.str "2024-12-25T10:00:00") (.int (-30)) =
      (.ok ("Event created: " ++ wProd.insertLink),
       [.insert "primary" (eventPayload (.str "x") ⟨63897156000, none⟩ (-30))]) ∧
    (eventPayload (.str "x") ⟨63897156000, none⟩ (-30)).end_.dateTime =
      isoformat (addMinutes ⟨63897156000, none⟩ (-30)) ∧
    ((addMinutes ⟨63897156000, none⟩ (-30)).secs < (63897156000 : Int) ↔ (-30 : Int) < 0) ∧
    ((addMinutes ⟨63897156000, none⟩ (-30)).secs = (63897156000 : Int) ↔ (-30 : Int) = 0) :=
  create_event_any_duration wProd (.str "x") "2024-12-25T10:00:00" ⟨63897156000, none⟩ (-30)
    ⟨.fromEnv "rtok" "https://oauth2.googleapis.com/token" "cid" "csec", rfl⟩ (by decide)

/-- Bounds of an ASCII digit character. -/
theorem isDig_bounds {c : Char} (h : isDig c = true) : 48 ≤ c.toNat ∧ c.toNat ≤ 57 := by
  simpa [isDig, Bool.and_eq_true, decide_eq_true_iff] using h

/-- Inversion of a two-digit field. -/
theorem d2_eq_some {c1 c2 : Char} {v : Nat} (h : d2 c1 c2 = some v) :
    isDig c1 = true ∧ isDig c2 = true ∧ v = 10 * digitVal c1 + digitVal c2 := by
  unfold d2 at h
  split at h
  · rename_i hb
    rw [Bool.and_eq_true] at hb
    exact ⟨hb.1, hb.2, (Option.some_inj.mp h).symm⟩
  · exact absurd h (by simp)

/-- `Nat.repr` of a digit value. -/
theorem repr_lt_ten : ∀ v : Nat, v < 10 → Nat.repr v = String.mk [Char.ofNat (48 + v)] := by
  decide

/-- `Nat.repr` of a two-digit value. -/
theorem repr_two_digit : ∀ v : Nat, v < 100 → 10 ≤ v →
    Nat.repr v = String.mk [Char.ofNat (48 + v / 10), Char.ofNat (48 + v % 10)] := by
  decide

/-- A digit character of value zero is `'0'`. -/
theorem char_of_digitVal_zero {c : Char} (h : isDig c = true) (hz : digitVal c = 0) :
    c = '0' := by
  have hb := isDig_bounds h
  have ht : c.toNat = 48 := by unfold digitVal at hz; omega
  calc c = Char.ofNat c.toNat := (Char.ofNat_toNat c).symm
    _ = '0' := by rw [ht]

/-- `pad2` re-renders the two digit characters a `d2` field was parsed
from. -/
theorem pad2_digits {c1 c2 : Char} (h1 : isDig c1 = true) (h2 : isDig c2 = true) :
    pad2 (10 * digitVal c1 + digitVal c2) = String.mk [c1, c2] := by
  have b1 := isDig_bounds h1
  have b2 := isDig_bounds h2
  have d1 : digitVal c1 ≤ 9 := by unfold digitVal; omega
  have d2' : digitVal c2 ≤ 9 := by unfold digitVal; omega
  have hc1 : Char.ofNat (48 + digitVal c1) = c1 := by
    have : 48 + digitVal c1 = c1.toNat := by unfold digitVal; omega
    rw [this, Char.ofNat_toNat]
  have hc2 : Char.ofNat (48 + digitVal c2) = c2 := by
    have : 48 + digitVal c2 = c2.toNat := by unfold digitVal; omega
    rw [this, Char.ofNat_toNat]
  by_cases hz : digitVal c1 = 0
  · have hv : 10 * digitVal c1 + digitVal c2 = digitVal c2 := by omega
    rw [hv, pad2, if_pos (by omega)]
    rw [repr_lt_ten (digitVal c2) (by omega), hc2]
    rw [char_of_digitVal_zero h1 hz]
    rfl
  · have hge : 10 ≤ 10 * digitVal c1 + digitVal c2 := by omega
    have hlt : 10 * digitVal c1 + digitVal c2 < 100 := by omega
    rw [pad2, if_neg (by omega)]
    rw [repr_two_digit _ hlt hge]
    have hq : (10 * digitVal c1 + digitVal c2) / 10 = digitVal c1 := by omega
    have hr : (10 * digitVal c1 + digitVal c2) % 10 = digitVal c2 := by omega
    rw [hq, hr, hc1, hc2]

/-- A non-negative offset renders with a `+` sign and its two parsed
fields. -/
theorem renderOffset_nonneg (oh om : Nat) (hom : om ≤ 59) :
    renderOffset ((60 * oh + om : Nat) : Int) = "+" ++ pad2 oh ++ ":" ++ pad2 om := by
  have hneg : ¬(((60 * oh + om : Nat) : Int) < 0) := by omega
  have habs : ((60 * oh + om : Nat) : Int).natAbs = 60 * oh + om := Int.natAbs_ofNat _
  have hq : (60 * oh + om) / 60 = oh := by omega
  have hr : (60 * oh + om) % 60 = om := by omega
  rw [renderOffset, if_neg hneg, habs, hq, hr]

/-- A strictly negative offset renders with a `-` sign and its two
parsed fields. -/
theorem renderOffset_negOf (oh om : Nat) (hom : om ≤ 59) (hpos : 0 < 60 * oh + om) :
    renderOffset (-((60 * oh + om : Nat) : Int)) = "-" ++ pad2 oh ++ ":" ++ pad2 om := by
  have hneg : (-((60 * oh + om : Nat) : Int)) < 0 := by omega
  have habs : (-((60 * oh + om : Nat) : Int)).natAbs = 60 * oh + om := by
    rw [Int.natAbs_neg, Int.natAbs_ofNat]
  have hq : (60 * oh + om) / 60 = oh := by omega
  have hr : (60 * oh + om) % 60 = om := by omega
  rw [renderOffset, if_pos hneg, habs, hq, hr]

/-- Reassociating a rendered offset into one character list. -/
theorem assemble_plus (a b d e : Char) :
    "+" ++ String.mk [a, b] ++ ":" ++ String.mk [d, e] = String.mk ['+', a, b, ':', d, e] := rfl

/-- Reassociating a rendered offset into one character list. -/
theorem assemble_minus (a b d e : Char) :
    "-" ++ String.mk [a, b] ++ ":" ++ String.mk [d, e] = String.mk ['-', a, b, ':', d, e] := rfl

/-- A parsed offset renders back to exactly its six input characters —
except that the input `-00:00` (minus-zero) renders back with a `+`
sign, as `datetime.isoformat` derives the sign from the signed zero
offset. -/
theorem mkOffset_render {sg o1 o2 o3 o4 : Char} {off : Int}
    (h : mkOffset sg o1 o2 o3 o4 = some off) :
    renderOffset off = String.mk [sg, o1, o2, ':', o3, o4] ∨
      (off = 0 ∧ sg = '-' ∧ o1 = '0' ∧ o2 = '0' ∧ o3 = '0' ∧ o4 = '0') := by
  unfold mkOffset at h
  cases h1 : d2 o1 o2 with
  | none => rw [h1] at h; simp at h
  | some oh =>
    cases h2 : d2 o3 o4 with
    | none => rw [h1, h2] at h; simp at h
    | some om =>
      rw [h1, h2] at h
      simp only [Option.bind_eq_bind, Option.some_bind] at h
      split at h
      · rename_i hcond
        obtain ⟨hsg, hoh, hom⟩ := hcond
        obtain ⟨g1, g2, hv1⟩ := d2_eq_some h1
        obtain ⟨g3, g4, hv2⟩ := d2_eq_some h2
        have hoff : off = (if sg = '-' then -1 else 1) * ((60 * oh + om : Nat) : Int) :=
          (Option.some_inj.mp h).symm
        by_cases hminus : sg = '-'
        · by_cases hz : 60 * oh + om = 0
          · right
            have hoh0 : oh = 0 := by omega
            have hom0 : om = 0 := by omega
            have e1 : digitVal o1 = 0 := by omega
            have e2 : digitVal o2 = 0 := by omega
            have e3 : digitVal o3 = 0 := by omega
            have e4 : digitVal o4 = 0 := by omega
            refine ⟨?_, hminus, char_of_digitVal_zero g1 e1, char_of_digitVal_zero g2 e2,
              char_of_digitVal_zero g3 e3, char_of_digitVal_zero g4 e4⟩
            rw [hoff, if_pos hminus]
            omega
          · left
            have hoff' : off = -((60 * oh + om : Nat) : Int) := by
              rw [hoff, if_pos hminus]; ring
            rw [hoff', renderOffset_negOf oh om hom (by omega)]
            rw [hv1, hv2, pad2_digits g1 g2, pad2_digits g3 g4, hminus]
            exact assemble_minus o1 o2 o3 o4
        · left
          have hplus : sg = '+' := by
            rcases hsg with hp | hm
            · exact hp
            · exact absurd hm hminus
          have hoff' : off = ((60 * oh + om : Nat) : Int) := by
            rw [hoff, if_neg hminus]; ring
          rw [hoff', renderOffset_nonneg oh om hom]
          rw [hv1, hv2, pad2_digits g1 g2, pad2_digits g3 g4, hplus]
          exact assemble_plus o1 o2 o3 o4
      · exact absurd h (by simp)

/-- Shape inversion of `parseOffset`. -/
theorem parseOffset_inv {l : List Char} {off : Int} (h : parseOffset l = some off) :
    ∃ sg o1 o2 o3 o4, l = [sg, o1, o2, ':', o3, o4] ∧ mkOffset sg o1 o2 o3 o4 = some off := by
  rcases l with _ | ⟨sg, l⟩; · simp [parseOffset] at h
  rcases l with _ | ⟨o1, l⟩; · simp [parseOffset] at h
  rcases l with _ | ⟨o2, l⟩; · simp [parseOffset] at h
  rcases l with _ | ⟨c, l⟩; · simp [parseOffset] at h
  rcases l with _ | ⟨o3, l⟩; · simp [parseOffset] at h
  rcases l with _ | ⟨o4, l⟩; · simp [parseOffset] at h
  rcases l with _ | ⟨x, l⟩
  · rw [parseOffset] at h
    split at h
    · rename_i hc
      subst hc
      exact ⟨sg, o1, o2, o3, o4, rfl, h⟩
    · exact absurd h (by simp)
  · simp [parseOffset] at h

/-- A start time that parses with an offset ends with the characters
that offset renders back to — verbatim, except for the minus-zero
offset `-00:00`. -/
theorem parseISO_offset_suffix {s : String} {dt : PyDateTime} {off : Int}
    (h : parseISO s = some dt) (htz : dt.tz = some off) :
    (renderOffset off).data <:+ s.data ∨
      (off = 0 ∧ ("-00:00").data <:+ s.data) := by
  unfold parseISO at h
  split at h
  · obtain ⟨n, _, hdt⟩ := Option.map_eq_some.mp h
    rw [← hdt] at htz
    simp at htz
  · split at h
    · cases hn : parseNaive (s.data.take 19) with
      | none => rw [hn] at h; simp at h
      | some n =>
        cases ho : parseOffset (s.data.drop 19) with
        | none => rw [hn, ho] at h; simp at h
        | some o =>
          rw [hn, ho] at h
          have hdt : dt = ⟨n, some o⟩ := (Option.some_inj.mp h).symm
          have hoo : o = off := by rw [hdt] at htz; simpa using htz
          subst hoo
          obtain ⟨sg, o1, o2, o3, o4, hdrop, hmk⟩ := parseOffset_inv ho
          have hsuf : s.data.drop 19 <:+ s.data := List.drop_suffix 19 s.data
          rw [hdrop] at hsuf
          rcases mkOffset_render hmk with hr | ⟨hz, hsg, h1, h2, h3, h4⟩
          · left
            rw [hr]
            exact hsuf
          · right
            refine ⟨hz, ?_⟩
            rw [hsg, h1, h2, h3, h4] at hsuf
            exact hsuf
    · exact absurd h (by simp)

/-- C1 (as amended): for every `create_event` payload, if the parsed
start time carries no UTC offset, both `start` and `end` carry the
timezone label `"America/Los_Angeles"`; if it carries an offset, no
`timeZone` label is attached and both timestamps end with the
canonical `±HH:MM` rendering of that offset, which reproduces the
input's offset characters verbatim except that an input offset of
`-00:00` is rendered `+00:00`. -/
theorem create_event_timezone_policy (summary : Arg) (s : String) (m : Int) (dt : PyDateTime)
    (h : parseISO s = some dt) :
    buildEvent summary s m = some (eventPayload summary dt m) ∧
    ((dt.tz = none ∧
        (eventPayload summary dt m).start.timeZone = some "America/Los_Angeles" ∧
        (eventPayload summary dt m).end_.timeZone = some "America/Los_Angeles" ∧
        (eventPayload summary dt m).start.dateTime = isoNaive dt.secs ∧
        (eventPayload summary dt m).end_.dateTime = isoNaive (dt.secs + 60 * m)) ∨
      (∃ off, dt.tz = some off ∧
        (eventPayload summary dt m).start.timeZone = none ∧
        (eventPayload summary dt m).end_.timeZone = none ∧
        (eventPayload summary dt m).start.dateTime = isoNaive dt.secs ++ renderOffset off ∧
        (eventPayload summary dt m).end_.dateTime =
          isoNaive (dt.secs + 60 * m) ++ renderOffset off ∧
        ((renderOffset off).data <:+ s.data ∨
          (off = 0 ∧ ("-00:00").data <:+ s.data)))) := by
  refine ⟨by simp [buildEvent, h], ?_⟩
  have hsuf := fun off (htz : dt.tz = some off) => parseISO_offset_suffix h htz
  obtain ⟨sec, tz⟩ := dt
  cases tz with
  | none =>
    left
    simp [eventPayload, isoformat, addMinutes]
  | some off =>
    right
    exact ⟨off, rfl, rfl, rfl, rfl, rfl, hsuf off rfl⟩

/-- Witness for `create_event_timezone_policy` at the specification's
example `create_event(summary="Standup", start_time="2024-12-25T10:00:00",
duration_minutes=30)`. -/
theorem create_event_timezone_policy_witness :
    buildEvent (.str "Standup") "2024-12-25T10:00:00" 30 =
      some (eventPayload (.str "Standup") ⟨63897156000, none⟩ 30) ∧
    (((⟨63897156000, none⟩ : PyDateTime).tz = none ∧
        (eventPayload (.str "Standup") ⟨63897156000, none⟩ 30).start.timeZone =
          some "America/Los_Angeles" ∧
        (eventPayload (.str "Standup") ⟨63897156000, none⟩ 30).end_.timeZone =
          some "America/Los_Angeles" ∧
        (eventPayload (.str "Standup") ⟨63897156000, none⟩ 30).start.dateTime =
          isoNaive (63897156000 : Int) ∧
        (eventPayload (.str "Standup") ⟨63897156000, none⟩ 30).end_.dateTime =
          isoNaive ((63897156000 : Int) + 60 * 30)) ∨
      (∃ off, (⟨63897156000, none⟩ : PyDateTime).tz = some off ∧
        (eventPayload (.str "Standup") ⟨63897156000, none⟩ 30).start.timeZone = none ∧
        (eventPayload (.str "Standup") ⟨63897156000, none⟩ 30).end_.timeZone = none ∧
        (eventPayload (.str "Standup") ⟨63897156000, none⟩ 30).start.dateTime =
          isoNaive (63897156000 : Int) ++ renderOffset off ∧
        (eventPayload (.str "Standup") ⟨63897156000, none⟩ 30).end_.dateTime =
          isoNaive ((63897156000 : Int) + 60 * 30) ++ renderOffset off ∧
        ((renderOffset off).data <:+ ("2024-12-25T10:00:00").data ∨
          (off = 0 ∧ ("-00:00").data <:+ ("2024-12-25T10:00:00").data)))) :=
  create_event_timezone_policy (.str "Standup") "2024-12-25T10:00:00" 30
    ⟨63897156000, none⟩ (by decide)

/-- C1 counterexample to the claim as stated: for the input offset
`-00:00`, the payload renders `+00:00` in both timestamps, so the
offset is not preserved verbatim. -/
theorem create_event_offset_not_verbatim :
    (buildEvent (.str "x") "2024-12-25T10:00:00-00:00" 30).map (fun b => b.start.dateTime) =
      some "2024-12-25T10:00:00+00:00" ∧
    (buildEvent (.str "x") "2024-12-25T10:00:00-00:00" 30).map (fun b => b.end_.dateTime) =
      some "2024-12-25T10:30:00+00:00" ∧
    (buildEvent (.str "x") "2024-12-25T10:00:00-00:00" 30).map (fun b => b.start.timeZone) =
      some none ∧
    ¬ (("-00:00").data <:+ ("2024-12-25T10:00:00+00:00").data) := by
  decide

/-- The spec's concrete example, end to end: the exact payload of
`create_event(summary="Standup", start_time="2024-12-25T10:00:00",
duration_minutes=30)`. -/
theorem spec_example_payload :
    buildEvent (.str "Standup") "2024-12-25T10:00:00" 30 =
      some ⟨.str "Standup",
            ⟨"2024-12-25T10:00:00", some "America/Los_Angeles"⟩,
            ⟨"2024-12-25T10:30:00", some "America/Los_Angeles"⟩⟩ := by
  decide

/-- Witness for `missing_required_arg_no_provider_call`: a
`create_event` call with an empty argument mapping. -/
theorem missing_required_arg_no_provider_call_witness :
    (call_tool wProd ⟨"create_event", []⟩).2 = [] ∧
    ∃ k, (k = "summary" ∨ k = "start_time") ∧ lookupArg [] k = none ∧
      (call_tool wProd ⟨"create_event", []⟩).1 = .err 500 (strOfError (.keyError k)) :=
  missing_required_arg_no_provider_call wProd [] (Or.inl rfl)
